import Mathlib

/-!
Shallow embedding of the Local-ai-assistant backend: the tool execution
pipeline (`backend/services/tool_manager.py`, `backend/services/tools/base_tool.py`),
the tool-call response parsing (`parse_tool_calls` in `backend/api/chat.py`)
and the session/conversation manager (`backend/services/chat_manager.py`).
Python dictionaries become association lists, `datetime.now()` becomes an
explicit `now : Nat` parameter, and raised exceptions travel in the error
channel of `Except`.
-/

namespace Assistant

/-- A dynamic Python value, restricted to the shapes the embedded code paths
pass around. -/
inductive PyVal where
  | pyNone
  | pyBool (b : Bool)
  | pyInt (n : Int)
  | pyStr (s : String)
  | pyDict (entries : List (String × PyVal))

/-- A raised Python exception: `TypeError` (bad call binding), `ValueError`
(raised by `ChatManager.add_message`), or an arbitrary exception raised
inside a tool body. -/
inductive PyErr where
  | typeError (msg : String)
  | valueError (msg : String)
  | raised (msg : String)
  deriving Repr, DecidableEq

/-- `ToolResult` as defined in `backend/services/tools/base_tool.py`:
its `__init__` takes `success`, `output` (default `None`) and `error`
(default `None`) and stores them. -/
structure ToolResult where
  success : Bool
  output : PyVal := .pyNone
  error : PyVal := .pyNone

/-- The parameter names accepted by `ToolResult.__init__` in base_tool.py
(besides `self`). -/
def toolResultParams : List String := ["success", "output", "error"]

/-- Keyword-argument lookup with a default, used to bind `__init__` calls. -/
def getKw (kwargs : List (String × PyVal)) (k : String) (d : PyVal) : PyVal :=
  match kwargs.find? (fun kv => kv.1 == k) with
  | some kv => kv.2
  | none => d

/-- Calling `ToolResult(...)` with keyword arguments, bound the way Python
binds them against `__init__(self, success, output=None, error=None)`:
a keyword that is not a parameter raises `TypeError` before the body runs. -/
def toolResultInit (kwargs : List (String × PyVal)) : Except PyErr ToolResult :=
  match kwargs.find? (fun kv => !(toolResultParams.contains kv.1)) with
  | some kv =>
      .error (.typeError
        ("ToolResult.__init__() got an unexpected keyword argument " ++ kv.1))
  | none =>
      .ok { success := (match getKw kwargs "success" .pyNone with
                        | .pyBool b => b
                        | _ => false)
          , output := getKw kwargs "output" .pyNone
          , error := getKw kwargs "error" .pyNone }

/-- Tool metadata. `name` and `description` are the fields `ToolMetadata.__init__`
in base_tool.py sets. Modelled from the spec: the concrete tool classes under
`backend/services/tools/` are absent from the sources, and per the spec their
metadata also declares a category and a requires-confirmation flag, which
`ToolManager.execute_tool` and `ToolManager._is_tool_enabled` read. -/
structure ToolMetadata where
  name : String
  description : String := ""
  category : String := ""
  requires_confirmation : Bool := false

/-- A registered tool instance: its metadata and its execution entry point.
Modelled from the spec: a tool exposes an execution entry point taking a
session id plus a parameter mapping and returning a `ToolResult` (or raising,
carried in the `Except` error channel); `ToolManager.execute_tool` invokes it
as `tool.execute(session_id, **tool_call.parameters)`. -/
structure BaseTool where
  metadata : ToolMetadata
  execute : String → List (String × String) → Except PyErr ToolResult

/-- The configuration fields from `backend/config.py` the embedded code reads. -/
structure Settings where
  enable_system_commands : Bool := false

/-- Python dictionary lookup over an association list (keys are unique because
every write goes through `dictSet`): the value of the first entry with the
key, `none` when absent. -/
def dictGet {α : Type} (d : List (String × α)) (k : String) : Option α :=
  match d with
  | [] => none
  | kv :: rest => if kv.1 == k then some kv.2 else dictGet rest k

/-- Python dictionary assignment `d[k] = v`: replace in place if the key is
present, else append at the end. -/
def dictSet {α : Type} (d : List (String × α)) (k : String) (v : α) :
    List (String × α) :=
  match d with
  | [] => [(k, v)]
  | kv :: rest => if kv.1 == k then (k, v) :: rest else kv :: dictSet rest k v

/-- Python dictionary deletion `del d[k]`: remove the entry with key `k`. -/
def dictDel {α : Type} (d : List (String × α)) (k : String) : List (String × α) :=
  match d with
  | [] => []
  | kv :: rest => if kv.1 == k then dictDel rest k else kv :: dictDel rest k

/-- Modelled from the spec: `ToolCall` from `backend/models/chat.py` (absent
from the sources): tool name, string-keyed parameter mapping, and a
requires-confirmation flag computed at parse time. -/
structure ToolCall where
  tool_name : String
  parameters : List (String × String) := []
  requires_confirmation : Bool := false
  deriving Repr, DecidableEq

/-- `ToolManager.get_tool`: lookup in the name-keyed `self.tools` mapping. -/
def get_tool (tools : List (String × BaseTool)) (tool_name : String) :
    Option BaseTool :=
  dictGet tools tool_name

/-- `ToolManager._is_tool_enabled`: the `system_command` tool of the `system`
category is gated by `settings.enable_system_commands`; other tools are
enabled by default. -/
def is_tool_enabled (s : Settings) (tool : BaseTool) : Bool :=
  if tool.metadata.category == "system" && tool.metadata.name == "system_command"
  then s.enable_system_commands
  else true

/-- `ToolManager.execute_tool` (tool_manager.py lines 94-138): unknown tool,
confirmation gate and enablement gate each return an error `ToolResult` built
by `ToolResult(...)`, otherwise the tool's execution entry point is invoked
directly. A raised exception surfaces in the error channel. -/
def execute_tool (tools : List (String × BaseTool)) (s : Settings)
    (session_id : String) (tool_call : ToolCall) (confirm : Bool) :
    Except PyErr ToolResult :=
  match get_tool tools tool_call.tool_name with
  | none =>
      toolResultInit
        [("success", .pyBool false), ("output", .pyNone),
         ("error", .pyStr ("Tool not found: " ++ tool_call.tool_name)),
         ("execution_time", .pyInt 0)]
  | some tool =>
      if tool.metadata.requires_confirmation && !confirm then
        toolResultInit
          [("success", .pyBool false), ("output", .pyNone),
           ("error", .pyStr "Tool requires user confirmation"),
           ("execution_time", .pyInt 0),
           ("metadata", .pyDict [("requires_confirmation", .pyBool true)])]
      else if !(is_tool_enabled s tool) then
        toolResultInit
          [("success", .pyBool false), ("output", .pyNone),
           ("error", .pyStr ("Tool " ++ tool_call.tool_name ++ " is disabled")),
           ("execution_time", .pyInt 0)]
      else
        tool.execute session_id tool_call.parameters

/-! `parse_tool_calls` in `backend/api/chat.py` scans the response text with
the regular expression `\[TOOL:\s*(\w+)\((.*?)\)\]` (re.findall, left to
right, non-overlapping) and post-processes each match. -/

/-- Python `\s`: ASCII whitespace (space, tab, newline, carriage return,
vertical tab, form feed). -/
def isPySpace (c : Char) : Bool :=
  c == ' ' || c == '\t' || c == '\n' || c == '\r' || c == '\x0b' || c == '\x0c'

/-- Python `\w`, restricted to ASCII: letters, digits and underscore. -/
def isWordChar (c : Char) : Bool :=
  c.isAlphanum || c == '_'

/-- Match a literal character sequence at the head of the input, returning the
remainder. -/
def stripLit : List Char → List Char → Option (List Char)
  | [], l => some l
  | _ :: _, [] => none
  | p :: ps, c :: cs => if c == p then stripLit ps cs else none

/-- The tail `(.*?)\)\]` of the pattern: the shortest run of non-newline
characters followed by the two characters `)]`. Returns the captured group
and the remainder after `)]`. -/
def lazyGroup : List Char → Option (List Char × List Char)
  | ')' :: ']' :: rest => some ([], rest)
  | [] => none
  | c :: cs =>
      if c == '\n' then none
      else match lazyGroup cs with
        | some (g, rest) => some (c :: g, rest)
        | none => none

/-- Attempt to match `\[TOOL:\s*(\w+)\((.*?)\)\]` at the head of the input;
on success return (group 1 = tool name, group 2 = raw argument text, the
remainder after the whole match). `\s*` and `\w+` are greedy, but each is
followed by a character outside its class, so maximal munch is exact. -/
def matchToolAt (l : List Char) : Option (String × String × List Char) :=
  match stripLit "[TOOL:".toList l with
  | none => none
  | some l1 =>
    let l2 := l1.dropWhile isPySpace
    let name := l2.takeWhile isWordChar
    if name.isEmpty then none
    else
      match l2.dropWhile isWordChar with
      | '(' :: l3 =>
        match lazyGroup l3 with
        | some (g2, rest) => some (name.asString, g2.asString, rest)
        | none => none
      | _ => none

/-- `re.findall` over the input: try a match at each position; after a match,
resume after it (non-overlapping); otherwise advance one character. The fuel
starts at the input length, which suffices because every step consumes at
least one character. -/
def findToolMatches : Nat → List Char → List (String × String)
  | 0, _ => []
  | _ + 1, [] => []
  | fuel + 1, c :: cs =>
    match matchToolAt (c :: cs) with
    | some (g1, g2, rest) => (g1, g2) :: findToolMatches fuel rest
    | none => findToolMatches fuel cs

/-- The two quote characters, `"` (code 34) and the apostrophe (code 39),
that `parse_tool_calls` strips from the raw argument text. -/
def isQuoteChar (c : Char) : Bool :=
  c.toNat == 34 || c.toNat == 39

/-- Python `params_str.strip(...)` over the quote-character set: remove every
leading and trailing quote character. -/
def stripQuotes (s : String) : String :=
  (((s.toList.dropWhile isQuoteChar).reverse.dropWhile isQuoteChar).reverse).asString

/-- The static list of dangerous tool names in `parse_tool_calls` (chat.py
lines 387-389). -/
def dangerous_tool_names : List String :=
  ["write_file", "delete_file", "system_command"]

/-- The parameter mapping `parse_tool_calls` builds from one match: for a
nonempty argument text, strip quotes, then map it to `query` for `web_search`
and to `path` for `read_file` and `write_file`; every other name gets an
empty mapping. -/
def parse_params (tool_name params_str : String) : List (String × String) :=
  if params_str.isEmpty then []
  else
    let stripped := stripQuotes params_str
    if tool_name == "web_search" || tool_name == "read_file" ||
        tool_name == "write_file" then
      if tool_name == "web_search" then [("query", stripped)]
      else [("path", stripped)]
    else []

/-- `parse_tool_calls` (chat.py lines 356-397). -/
def parse_tool_calls (response : String) : List ToolCall :=
  (findToolMatches response.toList.length response.toList).map fun m =>
    { tool_name := m.1
    , parameters := parse_params m.1 m.2
    , requires_confirmation := dangerous_tool_names.contains m.1 }

/-! The session/conversation manager (`backend/services/chat_manager.py`).
The model classes it stores come from `backend/models/chat.py`, which is
absent from the sources, so they are modelled from the spec. -/

/-- Modelled from the spec: `Message` from `backend/models/chat.py` (absent
from the sources): role, content, timestamp, optional metadata mapping;
immutable once appended. -/
structure Message where
  role : String
  content : String
  timestamp : Nat := 0
  metadata : List (String × String) := []
  deriving Repr, DecidableEq

/-- Modelled from the spec: `Conversation` from `backend/models/chat.py`
(absent from the sources): identifier, ordered append-only message sequence,
creation timestamp. -/
structure Conversation where
  id : String
  messages : List Message := []
  created_at : Nat := 0
  deriving Repr, DecidableEq

/-- Modelled from the spec: `Conversation.add_message` appends to the ordered
message sequence. -/
def Conversation.add_message (c : Conversation) (m : Message) : Conversation :=
  { c with messages := c.messages ++ [m] }

/-- Modelled from the spec: `Conversation.get_context` returns the most recent
`max_messages` entries, oldest first, projected to role/content pairs. -/
def Conversation.get_context (c : Conversation) (max_messages : Nat) :
    List (String × String) :=
  (c.messages.drop (c.messages.length - max_messages)).map fun m =>
    (m.role, m.content)

/-- Modelled from the spec: `SessionInfo` from `backend/models/chat.py`
(absent from the sources), with the fields `ChatManager.create_session`
populates. -/
structure SessionInfo where
  session_id : String
  conversation_id : String
  created_at : Nat := 0
  last_activity : Nat := 0
  message_count : Nat := 0
  active : Bool := true
  deriving Repr, DecidableEq

/-- The system primer `ChatManager.create_session` seeds every conversation
with (chat_manager.py lines 77-84). -/
def system_primer : String :=
  "You are a helpful AI assistant with access to various tools. " ++
  "You can browse the web, read and write files, and execute system commands. " ++
  "Always ask for confirmation before performing potentially dangerous operations."

/-- The mutable state of a `ChatManager`: the `sessions` and `conversations`
dictionaries. -/
structure ChatManager where
  sessions : List (String × SessionInfo) := []
  conversations : List (String × Conversation) := []
  deriving Repr, DecidableEq

/-- `ChatManager.create_session` (chat_manager.py lines 68-103). The uuid4
values and the current time enter as the parameters `gen_session_id`,
`gen_conversation_id` and `now`; `session_id or str(uuid4())` falls back to
the generated id when the argument is absent or empty (Python truthiness). -/
def create_session (st : ChatManager) (session_id : Option String)
    (gen_session_id gen_conversation_id : String) (now : Nat) :
    ChatManager × SessionInfo :=
  let sid := match session_id with
    | some s => if s.isEmpty then gen_session_id else s
    | none => gen_session_id
  let cid := gen_conversation_id
  let conversation := Conversation.add_message { id := cid, created_at := now }
    { role := "system", content := system_primer, timestamp := now }
  let st1 : ChatManager :=
    { st with conversations := dictSet st.conversations cid conversation }
  let session : SessionInfo :=
    { session_id := sid
      conversation_id := cid
      created_at := now
      last_activity := now
      message_count := 0
      active := true }
  ({ st1 with sessions := dictSet st1.sessions sid session }, session)

/-- `ChatManager.get_session` (lines 105-111): lookup; on a hit the session's
`last_activity` is refreshed in place. -/
def get_session (st : ChatManager) (session_id : String) (now : Nat) :
    Option SessionInfo × ChatManager :=
  match dictGet st.sessions session_id with
  | none => (none, st)
  | some s =>
      let s2 := { s with last_activity := now }
      (some s2, { st with sessions := dictSet st.sessions session_id s2 })

/-- `ChatManager.end_session` (lines 113-126): if the session is live, mark
it inactive and delete it from `sessions`; the `conversations` dictionary is
not touched. Idempotent no-op when the session is absent. -/
def end_session (st : ChatManager) (session_id : String) : ChatManager :=
  match dictGet st.sessions session_id with
  | none => st
  | some _ => { st with sessions := dictDel st.sessions session_id }

/-- `ChatManager.get_conversation` (lines 128-130). -/
def get_conversation (st : ChatManager) (conversation_id : String) :
    Option Conversation :=
  dictGet st.conversations conversation_id

/-- `ChatManager.add_message` (lines 132-170): raises
`ValueError("Session not found: ...")` when the session is unknown and
`ValueError("Conversation not found: ...")` when its conversation is missing;
otherwise appends the message and bumps the session counters. The state is
returned alongside the result because mutations made before a raise (the
`get_session` activity refresh) persist. -/
def add_message (st : ChatManager) (session_id role content : String)
    (metadata : List (String × String)) (now : Nat) :
    ChatManager × Except PyErr Message :=
  match get_session st session_id now with
  | (none, st1) =>
      (st1, .error (.valueError ("Session not found: " ++ session_id)))
  | (some session, st1) =>
    match get_conversation st1 session.conversation_id with
    | none =>
        (st1, .error (.valueError
          ("Conversation not found: " ++ session.conversation_id)))
    | some conversation =>
      let message : Message :=
        { role := role
          content := content
          timestamp := now
          metadata := metadata }
      let conversation2 := conversation.add_message message
      let session2 :=
        { session with
          message_count := session.message_count + 1
          last_activity := now }
      ({ st1 with
          conversations :=
            dictSet st1.conversations session.conversation_id conversation2,
          sessions := dictSet st1.sessions session_id session2 },
       .ok message)

/-- `ChatManager.get_conversation_context` (lines 172-186): empty when the
session (or its conversation) is unknown, else the conversation's bounded
context; `get_session` refreshes activity as a side effect. -/
def get_conversation_context (st : ChatManager) (session_id : String)
    (max_messages : Nat) (now : Nat) : ChatManager × List (String × String) :=
  match get_session st session_id now with
  | (none, st1) => (st1, [])
  | (some session, st1) =>
    match get_conversation st1 session.conversation_id with
    | none => (st1, [])
    | some conversation => (st1, conversation.get_context max_messages)

/-- The full message history behind a session id: the messages of the
conversation the session owns, empty when either lookup misses. -/
def session_history (st : ChatManager) (session_id : String) : List Message :=
  match dictGet st.sessions session_id with
  | none => []
  | some s =>
    match dictGet st.conversations s.conversation_id with
    | none => []
    | some c => c.messages

/-- One public operation of the chat manager, with its nondeterministic
inputs (generated ids, clock readings) made explicit. -/
inductive Op where
  | createSession (session_id : Option String)
      (gen_session_id gen_conversation_id : String) (now : Nat)
  | getSession (session_id : String) (now : Nat)
  | endSession (session_id : String)
  | addMessage (session_id role content : String)
      (metadata : List (String × String)) (now : Nat)
  | getContext (session_id : String) (max_messages now : Nat)

/-- The state transition of one operation (return values discarded). -/
def applyOp (st : ChatManager) : Op → ChatManager
  | .createSession sid gsid gcid now => (create_session st sid gsid gcid now).1
  | .getSession sid now => (get_session st sid now).2
  | .endSession sid => end_session st sid
  | .addMessage sid role content md now => (add_message st sid role content md now).1
  | .getContext sid n now => (get_conversation_context st sid n now).1

/-- The manager state reached from a fresh manager by a sequence of public
operations. -/
def runOps (ops : List Op) : ChatManager :=
  ops.foldl applyOp {}

/-- A conversation whose first message is the system-role primer. -/
def primed (c : Conversation) : Prop :=
  ∃ m rest, c.messages = m :: rest ∧ m.role = "system" ∧ m.content = system_primer

/-- Every conversation stored in the manager is primed. -/
def conversations_primed (st : ChatManager) : Prop :=
  ∀ cid conv, (cid, conv) ∈ st.conversations → primed conv

/-- A concrete dangerous tool: a registered tool whose metadata carries
`requires_confirmation = True`, used to exercise the confirmation gate. -/
def confirm_tool : BaseTool :=
  { metadata :=
      { name := "write_file"
        description := "Write a file"
        category := "file_system"
        requires_confirmation := true }
    execute := fun _ _ => .ok { success := true, output := .pyStr "written" } }

/-- A concrete safe tool whose execution entry point raises an exception,
used to exercise the failure path of `execute_tool`. -/
def boom_tool : BaseTool :=
  { metadata :=
      { name := "web_search"
        description := "Search the web"
        category := "web"
        requires_confirmation := false }
    execute := fun _ _ => .error (.raised "boom") }

/-- A manager holding one live session `s` owning conversation `c`. -/
def demo_state : ChatManager := (create_session {} (some "s") "g" "c" 0).1

/-! Dictionary lemmas. -/

theorem mem_dictSet {α : Type} {d : List (String × α)} {k : String} {v : α}
    {p : String × α} (hp : p ∈ dictSet d k v) : p = (k, v) ∨ p ∈ d := by
  induction d with
  | nil =>
    simp [dictSet] at hp
    exact Or.inl hp
  | cons kv rest ih =>
    simp only [dictSet] at hp
    split at hp
    · rcases List.mem_cons.mp hp with h | h
      · exact Or.inl h
      · exact Or.inr (List.mem_cons_of_mem _ h)
    · rcases List.mem_cons.mp hp with h | h
      · exact Or.inr (h ▸ List.mem_cons_self _ _)
      · rcases ih h with h2 | h2
        · exact Or.inl h2
        · exact Or.inr (List.mem_cons_of_mem _ h2)

theorem dictGet_mem {α : Type} {d : List (String × α)} {k : String} {v : α}
    (h : dictGet d k = some v) : (k, v) ∈ d := by
  induction d with
  | nil => simp [dictGet] at h
  | cons kv rest ih =>
    rw [dictGet] at h
    split at h
    · rename_i hbeq
      have hk : kv.1 = k := eq_of_beq hbeq
      have hv : kv.2 = v := by injection h
      have hp : (k, v) = kv := by rw [← hk, ← hv]
      exact hp ▸ List.mem_cons_self _ _
    · exact List.mem_cons_of_mem _ (ih h)

theorem dictGet_dictSet_self {α : Type} (d : List (String × α)) (k : String)
    (v : α) : dictGet (dictSet d k v) k = some v := by
  induction d with
  | nil => simp [dictSet, dictGet]
  | cons kv rest ih =>
    rw [dictSet]
    split
    · simp [dictGet]
    · rename_i hne
      have h2 : (kv.1 == k) = false := Bool.eq_false_iff.mpr hne
      rw [dictGet, h2]
      simpa using ih

theorem dictGet_dictSet_ne {α : Type} (d : List (String × α)) (k k2 : String)
    (v : α) (hne : k2 ≠ k) : dictGet (dictSet d k v) k2 = dictGet d k2 := by
  have hkk2 : (k == k2) = false := by
    refine beq_eq_false_iff_ne.mpr ?_
    intro h
    exact hne h.symm
  induction d with
  | nil => simp [dictSet, dictGet, hkk2]
  | cons kv rest ih =>
    rw [dictSet]
    split
    · rename_i heq
      have hkvk : kv.1 = k := eq_of_beq heq
      have h2 : (kv.1 == k2) = false := by rw [hkvk]; exact hkk2
      rw [dictGet, dictGet, hkk2, h2]
      simp
    · rw [dictGet, dictGet]
      cases hcase : (kv.1 == k2) with
      | true => simp
      | false => simpa using ih

theorem dictGet_dictDel_self {α : Type} (d : List (String × α)) (k : String) :
    dictGet (dictDel d k) k = none := by
  induction d with
  | nil => rfl
  | cons kv rest ih =>
    rw [dictDel]
    split
    · exact ih
    · rename_i hne
      have h2 : (kv.1 == k) = false := Bool.eq_false_iff.mpr hne
      rw [dictGet, h2]
      simpa using ih

theorem mem_dictDel {α : Type} {d : List (String × α)} {k : String}
    {p : String × α} (hp : p ∈ dictDel d k) : p ∈ d := by
  induction d with
  | nil => simp [dictDel] at hp
  | cons kv rest ih =>
    rw [dictDel] at hp
    split at hp
    · exact List.mem_cons_of_mem _ (ih hp)
    · rcases List.mem_cons.mp hp with h | h
      · exact h ▸ List.mem_cons_self _ _
      · exact List.mem_cons_of_mem _ (ih h)

/-! State lemmas for the chat manager. -/

theorem get_session_conversations (st : ChatManager) (sid : String) (now : Nat) :
    ((get_session st sid now).2).conversations = st.conversations := by
  unfold get_session
  cases dictGet st.sessions sid <;> rfl

theorem end_session_conversations (st : ChatManager) (sid : String) :
    (end_session st sid).conversations = st.conversations := by
  unfold end_session
  cases dictGet st.sessions sid <;> rfl

theorem end_session_get_none (st : ChatManager) (sid : String) :
    dictGet (end_session st sid).sessions sid = none := by
  unfold end_session
  cases hd : dictGet st.sessions sid with
  | none => exact hd
  | some s => exact dictGet_dictDel_self st.sessions sid

theorem create_session_conversations (st : ChatManager) (sid : Option String)
    (g c : String) (now : Nat) :
    ((create_session st sid g c now).1).conversations =
      dictSet st.conversations c
        (Conversation.add_message { id := c, created_at := now }
          { role := "system", content := system_primer, timestamp := now }) := rfl

theorem get_conversation_context_state (st : ChatManager) (sid : String)
    (n now : Nat) :
    (get_conversation_context st sid n now).1 = (get_session st sid now).2 := by
  unfold get_conversation_context
  rcases hgs : get_session st sid now with ⟨os, st1⟩
  cases os with
  | none => rfl
  | some s => cases hgc : get_conversation st1 s.conversation_id <;> simp [hgc]

/-! Preservation of the system-primer invariant by every public operation. -/

theorem create_session_primed {st : ChatManager} (h : conversations_primed st)
    (sid : Option String) (g c : String) (now : Nat) :
    conversations_primed ((create_session st sid g c now).1) := by
  intro cid conv hmem
  rw [create_session_conversations] at hmem
  rcases mem_dictSet hmem with heq | hold
  · have hconv : conv =
        Conversation.add_message { id := c, created_at := now }
          { role := "system", content := system_primer, timestamp := now } := by
      injection heq with h1 h2
    refine ⟨{ role := "system", content := system_primer, timestamp := now }, [],
      ?_, rfl, rfl⟩
    rw [hconv]
    rfl
  · exact h _ _ hold

theorem add_message_primed {st : ChatManager} (h : conversations_primed st)
    (sid role content : String) (md : List (String × String)) (now : Nat) :
    conversations_primed ((add_message st sid role content md now).1) := by
  have h1 : conversations_primed ((get_session st sid now).2) := by
    intro cid conv hmem
    rw [get_session_conversations] at hmem
    exact h _ _ hmem
  unfold add_message
  rcases hgs : get_session st sid now with ⟨os, st1⟩
  rw [hgs] at h1
  cases os with
  | none => exact h1
  | some session =>
    cases hgc : get_conversation st1 session.conversation_id with
    | none => simp only [hgc]; exact h1
    | some conversation =>
      simp only [hgc]
      intro cid conv hmem
      rcases mem_dictSet hmem with heq | hold
      · have hconv : conv = conversation.add_message
            { role := role, content := content, timestamp := now, metadata := md } := by
          injection heq with hc1 hc2
        rcases h1 _ _ (dictGet_mem hgc) with ⟨m0, rest, hms, hrole, hcontent⟩
        refine ⟨m0,
          rest ++ [{ role := role, content := content, timestamp := now, metadata := md }],
          ?_, hrole, hcontent⟩
        rw [hconv]
        unfold Conversation.add_message
        simp [hms]
      · exact h1 _ _ hold

theorem applyOp_primed {st : ChatManager} (h : conversations_primed st)
    (op : Op) : conversations_primed (applyOp st op) := by
  cases op with
  | createSession sid gsid gcid now => exact create_session_primed h sid gsid gcid now
  | getSession sid now =>
    intro cid conv hmem
    rw [applyOp, get_session_conversations] at hmem
    exact h _ _ hmem
  | endSession sid =>
    intro cid conv hmem
    rw [applyOp, end_session_conversations] at hmem
    exact h _ _ hmem
  | addMessage sid role content md now => exact add_message_primed h sid role content md now
  | getContext sid n now =>
    intro cid conv hmem
    rw [applyOp, get_conversation_context_state, get_session_conversations] at hmem
    exact h _ _ hmem

theorem runOps_primed (ops : List Op) : conversations_primed (runOps ops) := by
  have key : ∀ (l : List Op) (st : ChatManager), conversations_primed st →
      conversations_primed (l.foldl applyOp st) := by
    intro l
    induction l with
    | nil => intro st h; exact h
    | cons op rest ih => intro st h; exact ih _ (applyOp_primed h op)
  refine key ops {} ?_
  intro cid conv h
  simp [ChatManager.conversations] at h

/-! Context-window lemmas. -/

theorem get_context_length_le (c : Conversation) (n : Nat) :
    (c.get_context n).length ≤ n := by
  unfold Conversation.get_context
  rw [List.length_map, List.length_drop]
  omega

theorem get_context_suffix (c : Conversation) (n : Nat) :
    c.get_context n <:+ (c.messages.map fun m => (m.role, m.content)) := by
  unfold Conversation.get_context
  rw [List.map_drop]
  exact List.drop_suffix _ _

theorem create_session_sessions (st : ChatManager) (s g c : String) (now : Nat)
    (hs : s.isEmpty = false) :
    ((create_session st (some s) g c now).1).sessions =
      dictSet st.sessions s (SessionInfo.mk s c now now 0 true) := by
  simp [create_session, hs]

/-! The claims. -/

/-- C1: for a registered tool whose metadata requires confirmation, calling
`execute_tool` with `confirm = false` never invokes the tool body, but instead
of returning the refusal `ToolResult` the call
`ToolResult(..., execution_time=0, metadata={"requires_confirmation": True})`
raises `TypeError`, because `ToolResult.__init__` in base_tool.py accepts only
`success`, `output` and `error`. -/
theorem execute_tool_confirmation_raises_type_error
    (tools : List (String × BaseTool)) (s : Settings) (session_id : String)
    (tool_call : ToolCall) (tool : BaseTool)
    (hfound : get_tool tools tool_call.tool_name = some tool)
    (hconf : tool.metadata.requires_confirmation = true) :
    execute_tool tools s session_id tool_call false =
      .error (.typeError
        "ToolResult.__init__() got an unexpected keyword argument execution_time") := by
  simp only [execute_tool, hfound, hconf]
  rfl

/-- Witness for C1: the concrete dangerous tool `write_file`, registered and
called without confirmation. -/
theorem execute_tool_confirmation_raises_type_error_witness :
    execute_tool [("write_file", confirm_tool)] {} "session1"
      { tool_name := "write_file" } false =
      .error (.typeError
        "ToolResult.__init__() got an unexpected keyword argument execution_time") :=
  execute_tool_confirmation_raises_type_error _ _ _ _ confirm_tool rfl rfl

/-- C2 counterexample: the registered safe tool `web_search` raises `boom`;
`execute_tool` propagates the exception instead of returning a `ToolResult`
with `success = false` carrying the message. -/
theorem execute_tool_does_not_wrap_failure :
    execute_tool [("web_search", boom_tool)] {} "session2"
      { tool_name := "web_search" } true = .error (.raised "boom") := rfl

/-- C2 (amended): for a registered, confirmation-satisfied, enabled tool whose
execution entry point raises a failure, `execute_tool` propagates that failure
to its caller unchanged (lines 137-138 invoke the tool with no try/except;
the HTTP route is the failure boundary instead). -/
theorem execute_tool_propagates_tool_failure
    (tools : List (String × BaseTool)) (s : Settings) (session_id : String)
    (tool_call : ToolCall) (confirm : Bool) (tool : BaseTool) (e : PyErr)
    (hfound : get_tool tools tool_call.tool_name = some tool)
    (hconf : (tool.metadata.requires_confirmation && !confirm) = false)
    (hen : is_tool_enabled s tool = true)
    (hraise : tool.execute session_id tool_call.parameters = .error e) :
    execute_tool tools s session_id tool_call confirm = .error e := by
  simp only [execute_tool, hfound, hconf, hen, Bool.false_eq_true, if_false,
    Bool.not_true]
  exact hraise

/-- Witness for C2's amended theorem: the raising `web_search` tool. -/
theorem execute_tool_propagates_tool_failure_witness :
    execute_tool [("web_search", boom_tool)] {} "session1"
      { tool_name := "web_search" } false = .error (.raised "boom") :=
  execute_tool_propagates_tool_failure _ _ _ _ _ boom_tool _ rfl rfl rfl rfl

/-- C3: parsing `[TOOL: web_search("python tutorials")]` yields exactly one
tool call, named `web_search`, with parameters `{query: "python tutorials"}`
and `requires_confirmation = false`. -/
theorem parse_web_search_example :
    parse_tool_calls "[TOOL: web_search(\"python tutorials\")]" =
      [{ tool_name := "web_search"
         parameters := [("query", "python tutorials")]
         requires_confirmation := false }] := by
  decide

/-- C4: every tool call produced by `parse_tool_calls` whose name belongs to
the static dangerous set (`write_file`, `delete_file`, `system_command`) has
`requires_confirmation = true`, for every input text and independently of any
registry. -/
theorem parse_dangerous_requires_confirmation (text : String) (tc : ToolCall)
    (hmem : tc ∈ parse_tool_calls text)
    (hname : tc.tool_name ∈ dangerous_tool_names) :
    tc.requires_confirmation = true := by
  unfold parse_tool_calls at hmem
  rcases List.mem_map.mp hmem with ⟨m, hm, rfl⟩
  exact List.elem_eq_true_of_mem hname

/-- Witness for C4: parsing `[TOOL: write_file("notes.txt")]` yields
`requires_confirmation = true`. -/
theorem parse_dangerous_requires_confirmation_witness :
    ({ tool_name := "write_file"
       parameters := [("path", "notes.txt")]
       requires_confirmation := true } : ToolCall).requires_confirmation = true :=
  parse_dangerous_requires_confirmation "[TOOL: write_file(\"notes.txt\")]" _
    (by decide) (by decide)

/-- C5: `get_conversation_context` returns at most `max_messages` entries,
they are a suffix of the projected full history of the session's conversation
in original (oldest-first) order, and the result is empty whenever the session
id is unknown. -/
theorem get_conversation_context_bound (st : ChatManager) (session_id : String)
    (n now : Nat) :
    ((get_conversation_context st session_id n now).2).length ≤ n ∧
    (get_conversation_context st session_id n now).2 <:+
      ((session_history st session_id).map fun m => (m.role, m.content)) ∧
    (dictGet st.sessions session_id = none →
      (get_conversation_context st session_id n now).2 = []) := by
  unfold get_conversation_context get_session session_history get_conversation
  cases hd : dictGet st.sessions session_id with
  | none => simp
  | some s =>
    cases hgc : dictGet st.conversations s.conversation_id with
    | none => simp [hgc]
    | some conversation =>
      simp [hgc, get_context_length_le, get_context_suffix]

/-- Witness for C5: the bound at a live one-message session, and the empty
result at an unknown session id. -/
theorem get_conversation_context_bound_witness :
    ((get_conversation_context demo_state "s" 1 3).2).length ≤ 1 ∧
    (get_conversation_context {} "s" 1 3).2 = [] :=
  ⟨(get_conversation_context_bound demo_state "s" 1 3).1,
   (get_conversation_context_bound {} "s" 1 3).2.2 rfl⟩

/-- C6: after `end_session`, `get_session` returns `none` and `add_message`
fails with the `Session not found` `ValueError`, leaving the state untouched. -/
theorem end_session_then_absent (st : ChatManager)
    (session_id role content : String) (md : List (String × String))
    (now now2 : Nat) :
    (get_session (end_session st session_id) session_id now).1 = none ∧
    add_message (end_session st session_id) session_id role content md now2 =
      (end_session st session_id,
        .error (.valueError ("Session not found: " ++ session_id))) := by
  have hnone := end_session_get_none st session_id
  constructor
  · unfold get_session
    rw [hnone]
  · unfold add_message get_session
    rw [hnone]

/-- C7: for a tool call whose name is not registered, the unknown-tool branch
of `execute_tool` calls `ToolResult(..., execution_time=0)`, which raises
`TypeError` instead of returning the `Tool not found` result, because
`ToolResult.__init__` in base_tool.py has no `execution_time` parameter. -/
theorem execute_tool_not_found_raises_type_error
    (tools : List (String × BaseTool)) (s : Settings) (session_id : String)
    (tool_call : ToolCall) (confirm : Bool)
    (h : get_tool tools tool_call.tool_name = none) :
    execute_tool tools s session_id tool_call confirm =
      .error (.typeError
        "ToolResult.__init__() got an unexpected keyword argument execution_time") := by
  simp only [execute_tool, h]
  rfl

/-- Witness for C7: an empty registry and the tool name `missing_tool`. -/
theorem execute_tool_not_found_raises_type_error_witness :
    execute_tool [] {} "session1" { tool_name := "missing_tool" } true =
      .error (.typeError
        "ToolResult.__init__() got an unexpected keyword argument execution_time") :=
  execute_tool_not_found_raises_type_error [] {} "session1"
    { tool_name := "missing_tool" } true rfl

/-- C8: in every manager state reachable by the public operations, every
stored conversation starts with the system-role primer: `create_session`
seeds it and no operation removes, reorders or prepends messages before it. -/
theorem first_message_is_system_primer (ops : List Op) (cid : String)
    (conv : Conversation)
    (hmem : (cid, conv) ∈ (runOps ops).conversations) :
    ∃ m rest, conv.messages = m :: rest ∧ m.role = "system" ∧
      m.content = system_primer :=
  runOps_primed ops cid conv hmem

set_option maxRecDepth 8000 in
/-- Witness for C8: the conversation created by one `createSession`. -/
theorem first_message_is_system_primer_witness :
    ∃ m rest,
      (Conversation.mk "c" [Message.mk "system" system_primer 0 []] 0).messages =
        m :: rest ∧ m.role = "system" ∧ m.content = system_primer :=
  first_message_is_system_primer [Op.createSession (some "s") "g" "c" 0] "c" _
    (by decide)

set_option maxRecDepth 8000 in
/-- C9 counterexample: ending the session that owns conversation `c` does not
make `c` unreachable: `get_conversation` still returns it afterwards. -/
theorem conversation_survives_end_session :
    get_conversation (end_session demo_state "s") "c" =
      some (Conversation.mk "c" [Message.mk "system" system_primer 0 []] 0) := by
  decide

/-- C9 (amended): `end_session` removes only the session; the conversations
table is untouched, so the owned conversation stays present and
`get_conversation` still returns it. -/
theorem end_session_leaves_conversations (st : ChatManager)
    (session_id conversation_id : String) :
    (end_session st session_id).conversations = st.conversations ∧
    get_conversation (end_session st session_id) conversation_id =
      get_conversation st conversation_id := by
  refine ⟨end_session_conversations st session_id, ?_⟩
  unfold get_conversation
  rw [end_session_conversations]

/-- C10: calling `create_session` with the id of a live session does not
fail: it rebinds the id to a fresh session owning the newly created
conversation, the old conversation stays in the table unchanged, and the old
conversation is no longer reachable through the session id. The hypothesis
`new_cid ≠ c` is uuid4 freshness of the generated conversation id. -/
theorem create_session_existing_id_replaces (st : ChatManager)
    (s gen_sid new_cid c : String) (sess : SessionInfo) (now : Nat)
    (hs : s.isEmpty = false)
    (_hlive : dictGet st.sessions s = some sess)
    (_hc : sess.conversation_id = c)
    (hne : new_cid ≠ c) :
    dictGet ((create_session st (some s) gen_sid new_cid now).1).sessions s =
      some (SessionInfo.mk s new_cid now now 0 true) ∧
    dictGet ((create_session st (some s) gen_sid new_cid now).1).conversations c =
      dictGet st.conversations c ∧
    (dictGet ((create_session st (some s) gen_sid new_cid now).1).sessions s).map
        SessionInfo.conversation_id ≠ some c := by
  have hsess := create_session_sessions st s gen_sid new_cid now hs
  have hconvs := create_session_conversations st (some s) gen_sid new_cid now
  refine ⟨?_, ?_, ?_⟩
  · rw [hsess]
    exact dictGet_dictSet_self _ _ _
  · rw [hconvs]
    exact dictGet_dictSet_ne _ _ _ _ hne.symm
  · rw [hsess, dictGet_dictSet_self]
    intro hcontra
    have : new_cid = c := by simpa using hcontra
    exact hne this

/-- Witness for C10: re-creating the live session `s` of `demo_state` with a
fresh conversation id `c2`. -/
theorem create_session_existing_id_replaces_witness :
    dictGet ((create_session demo_state (some "s") "g2" "c2" 7).1).sessions "s" =
      some (SessionInfo.mk "s" "c2" 7 7 0 true) ∧
    dictGet ((create_session demo_state (some "s") "g2" "c2" 7).1).conversations "c" =
      dictGet demo_state.conversations "c" ∧
    (dictGet ((create_session demo_state (some "s") "g2" "c2" 7).1).sessions "s").map
        SessionInfo.conversation_id ≠ some "c" :=
  create_session_existing_id_replaces demo_state "s" "g2" "c2" "c"
    (SessionInfo.mk "s" "c" 0 0 0 true) 7 (by decide) (by decide) rfl (by decide)

end Assistant
